import Mathlib

/-!
Verification model of the lead-list synchronization and optimistic-mutation
logic of the bonn-leads mobile client.

The definitions below are a shallow embedding of:
  * `src/services/leads.service.ts` — filter construction (`buildFilters`),
    the query payload built by `getLeadsAdvanced`, and the status tables;
  * `src/app/(app)/home/index.tsx` — the dashboard screen: the `fetchLeads`
    entry point and its flags, `handleLoadMore`, `handleRefresh`, and the
    optimistic mutation handlers (`handleAssignLead`, `handleUnassignLead`,
    `handleStatusChange`), plus the search-debounce timer effect.

Asynchronous handlers are modelled in phases: a `...Start` function covers
everything the JS code executes synchronously up to its first `await`
(state flag updates, the optimistic list patch, and issuing the network
call), and separate `...Success` / `...Failure` functions cover the code
after the awaited promise resolves or rejects.  Network calls issued
synchronously by a phase are returned in the `calls` list of the result,
and `Alert.alert` invocations in the `alerts` list.
-/

namespace BonnLeads

/-- Candidate assignee as produced by `LeadsService.getAssignees`
(`id` is `profile.user.id`, `name` the display name). -/
structure Assignee where
  id : Nat
  name : String
  deriving Repr, DecidableEq

/-- In-memory lead record: the fields that the dashboard logic
reads or writes (`src/types` `Lead`, restricted to the used fields). -/
structure Lead where
  id : Nat
  first_name : String
  last_name : String
  status : String
  assigned_to : Option Nat
  assignee : Option Assignee
  deriving Repr, DecidableEq

/-- One `{field, operator, value}` predicate of the advanced filter
payload (`LeadFilter` in `leads.service.ts`).  The only values the
client ever puts in `value` are status strings, so `value : String`. -/
structure LeadFilter where
  field : String
  operator : String
  value : String
  deriving Repr, DecidableEq

/-- The six status codes of `LEAD_STATUSES` (keys 1..6 in
`leads.service.ts`). -/
inductive LeadStatusNumber
  | n1
  | n2
  | n3
  | n4
  | n5
  | n6
  deriving Repr, DecidableEq

/-- `LEAD_STATUSES[n].label` from `leads.service.ts`. -/
def getStatusLabel : LeadStatusNumber → String
  | .n1 => "Pending"
  | .n2 => "Lead Assigned"
  | .n3 => "Lead Contacted"
  | .n4 => "Waiting Recall"
  | .n5 => "Interview Arranged"
  | .n6 => "Finished"

/-- `LEAD_STATUSES[n].apiName` from `leads.service.ts`. -/
def getStatusApiName : LeadStatusNumber → String
  | .n1 => "pending"
  | .n2 => "lead_assigned"
  | .n3 => "lead_contacted"
  | .n4 => "waiting_recall"
  | .n5 => "interview_arranged"
  | .n6 => "finished"

/-- The keys of `STATUS_FILTER_MAP` in `home/index.tsx` (the filter
pills shown on the dashboard). -/
inductive StatusFilterKey
  | allStatus
  | pending
  | leadAssigned
  | leadContacted
  | waitingRecall
  | interviewArranged
  | finished
  deriving Repr, DecidableEq

/-- `STATUS_FILTER_MAP` from `home/index.tsx`: display key to API status
value; `'All Status'` maps to `null` (no filter). -/
def STATUS_FILTER_MAP : StatusFilterKey → Option String
  | .allStatus => none
  | .pending => some "pending"
  | .leadAssigned => some "lead_assigned"
  | .leadContacted => some "lead_contacted"
  | .waitingRecall => some "waiting_recall"
  | .interviewArranged => some "interview_arranged"
  | .finished => some "finished"

/-- `LeadsService.buildFilters(searchQuery?, status?)`
(`leads.service.ts` lines 236-252).  The body only inspects `status`:
`if (status && status !== 'all' && status !== 'All Status')` pushes one
status equality predicate.  JS truthiness makes both an absent status
and the empty string fall through to the empty filter list; the
`searchQuery` parameter is kept for backward compatibility but unused. -/
def buildFilters (searchQuery : Option String) (status : Option String) :
    List LeadFilter :=
  match status with
  | some s =>
      if s ≠ "" ∧ s ≠ "all" ∧ s ≠ "All Status" then
        [{ field := "status", operator := "eq", value := s }]
      else []
  | none => []

/-- Whitespace as stripped by the JS `String.prototype.trim` (restricted
to the ASCII whitespace characters actually occurring in search input). -/
def isSpaceChar (c : Char) : Bool :=
  c = ' ' ∨ c = '\t' ∨ c = '\n' ∨ c = '\r'

/-- Strips leading and trailing whitespace from a character list. -/
def trimmedCore (l : List Char) : List Char :=
  ((l.dropWhile isSpaceChar).reverse.dropWhile isSpaceChar).reverse

/-- Model of the JS `searchQuery.trim()`. -/
def jsTrim (s : String) : String :=
  ⟨trimmedCore s.data⟩

/-- The argument record of `LeadsService.getLeadsAdvanced`
(`AdvancedLeadFilters` in `leads.service.ts`). -/
structure AdvancedLeadFilters where
  page : Option Nat
  per_page : Option Nat
  filters : Option (List LeadFilter)
  search_term : Option String
  deriving Repr, DecidableEq

/-- The query payload that `getLeadsAdvanced` serializes into the
request URL: `page` and `per_page` always present, `search_term` and
`filters` only when set. -/
structure QueryParams where
  page : Nat
  per_page : Nat
  search_term : Option String
  filters : Option (List LeadFilter)
  deriving Repr, DecidableEq

/-- JS `x || d` for an optional number: both `undefined` and `0` are
falsy and give the default. -/
def jsOrNat (x : Option Nat) (d : Nat) : Nat :=
  match x with
  | some n => if n = 0 then d else n
  | none => d

/-- The query-parameter object built by `LeadsService.getLeadsAdvanced`
(`leads.service.ts` lines 101-120) before the network call:
`page: filters.page || 1`, `per_page: filters.per_page || 15`,
`search_term` only `if (filters.search_term && filters.search_term.trim())`
(then trimmed), `filters` only when a non-empty array was passed. -/
def getLeadsAdvancedQuery (f : AdvancedLeadFilters) : QueryParams :=
  { page := jsOrNat f.page 1
    per_page := jsOrNat f.per_page 15
    search_term :=
      match f.search_term with
      | some s => if jsTrim s ≠ "" then some (jsTrim s) else none
      | none => none
    filters :=
      match f.filters with
      | some fs => if fs.length > 0 then some fs else none
      | none => none }

/-- The request built by the dashboard's `fetchLeads`
(`home/index.tsx` lines 214-237): filters come from
`LeadsService.buildFilters(undefined, statusValue || undefined)` with
`statusValue = STATUS_FILTER_MAP[selectedStatus]`, and the search box
value is passed separately as `search_term: searchQuery.trim() || undefined`,
through `getLeadsAdvanced` with `per_page: 15`. -/
def fetchLeadsRequest (selectedStatus : StatusFilterKey)
    (searchQuery : String) (page : Nat) : QueryParams :=
  let statusValue := STATUS_FILTER_MAP selectedStatus
  let filters := buildFilters none statusValue
  getLeadsAdvancedQuery
    { page := some page
      per_page := some 15
      filters := if filters.length > 0 then some filters else none
      search_term :=
        if jsTrim searchQuery ≠ "" then some (jsTrim searchQuery) else none }

/-- A network request issued by the dashboard logic, matching the
`LeadsService` endpoints it calls. -/
inductive NetworkCall
  | getLeads (query : QueryParams)
  | assign (leadId : Nat) (assigneeId : Nat)
  | unassign (leadId : Nat)
  | changeStatus (leadId : Nat) (statusApiName : String)
  | notifyAssignee (leadId : Nat)
  deriving Repr, DecidableEq

/-- An `Alert.alert` invocation (`showErrorAlert` / `showSuccessAlert`
in `home/index.tsx`). -/
structure AlertMsg where
  title : String
  message : String
  isError : Bool
  deriving Repr, DecidableEq

/-- Builds the alert produced by `showErrorAlert(title, message)`. -/
def errorAlert (title message : String) : AlertMsg :=
  { title := title, message := message, isError := true }

/-- Builds the alert produced by `showSuccessAlert(title, message)`. -/
def successAlert (title message : String) : AlertMsg :=
  { title := title, message := message, isError := false }

/-- The `useState` cells of `AdminDashboardScreen` that the modelled
logic reads or writes (`home/index.tsx` lines 63-90), plus the fetched
assignee directory. -/
structure DashboardState where
  leads : List Lead
  assignees : List Assignee
  currentPage : Nat
  hasNextPage : Bool
  totalLeads : Nat
  loading : Bool
  refreshing : Bool
  loadingMore : Bool
  error : Option String
  assigningLead : Option Nat
  unassigningLead : Option Nat
  changingStatus : Option Nat
  notifyingAssignee : Option Nat
  deriving Repr, DecidableEq

/-- Result of one synchronously-executed phase of a handler: the state
after its `setState` calls, the network calls it issued, and the alerts
it showed. -/
structure StepResult where
  state : DashboardState
  calls : List NetworkCall
  alerts : List AlertMsg
  deriving Repr, DecidableEq

/-- The response shape `fetchLeads` consumes from
`LeadsService.getLeadsAdvanced` (leads plus pagination metadata). -/
structure LeadsResponse where
  leads : List Lead
  currentPage : Nat
  total : Nat
  hasNextPage : Bool
  deriving Repr, DecidableEq

/-- Synchronous prefix of `fetchLeads(page, isRefresh, isLoadMore)`
(`home/index.tsx` lines 198-237): sets exactly one loading flag
(refresh wins over loadMore wins over the `page === 1` first-page case),
clears `error` for refresh and first-page loads, then unconditionally
issues the `getLeadsAdvanced` network call built from the current
filter state.  No flag is consulted before issuing the call. -/
def fetchLeadsStart (s : DashboardState) (selectedStatus : StatusFilterKey)
    (searchQuery : String) (page : Nat) (isRefresh : Bool)
    (isLoadMore : Bool) : StepResult :=
  let s1 :=
    if isRefresh then { s with refreshing := true, error := none }
    else if isLoadMore then { s with loadingMore := true }
    else if page = 1 then { s with loading := true, error := none }
    else s
  { state := s1
    calls := [NetworkCall.getLeads (fetchLeadsRequest selectedStatus searchQuery page)]
    alerts := [] }

/-- Continuation of `fetchLeads` when the network call resolves
(`home/index.tsx` lines 239-254 and the `finally` block): refresh and
page-1 responses replace the list wholesale (`setCurrentPage(1)` is then
overwritten by the response's `currentPage`); other pages append; the
pagination metadata is copied from the response and all three loading
flags are cleared. -/
def fetchLeadsSuccess (s : DashboardState) (page : Nat) (isRefresh : Bool)
    (isLoadMore : Bool) (resp : LeadsResponse) : StepResult :=
  let s1 :=
    if isRefresh ∨ page = 1 then { s with leads := resp.leads, currentPage := 1 }
    else { s with leads := s.leads ++ resp.leads }
  let s2 := { s1 with
    hasNextPage := resp.hasNextPage
    totalLeads := resp.total
    currentPage := resp.currentPage }
  { state := { s2 with loading := false, refreshing := false, loadingMore := false }
    calls := []
    alerts := if isRefresh then [successAlert "Refreshed" "Leads updated successfully"] else [] }

/-- Continuation of `fetchLeads` when the network call rejects
(`home/index.tsx` lines 255-268): records the message in `error`,
alerts only for a non-refresh non-loadMore fetch, clears the loading
flags, and touches nothing else — the displayed list and pagination
fields are left as they were. -/
def fetchLeadsFailure (s : DashboardState) (isRefresh : Bool)
    (isLoadMore : Bool) (msg : String) : StepResult :=
  { state := { s with
      error := some msg
      loading := false
      refreshing := false
      loadingMore := false }
    calls := []
    alerts := if ¬isRefresh ∧ ¬isLoadMore then [errorAlert "Failed to Load" msg] else [] }

/-- `handleRefresh` (`home/index.tsx` lines 318-320): `fetchLeads(1, true)`. -/
def handleRefresh (s : DashboardState) (selectedStatus : StatusFilterKey)
    (searchQuery : String) : StepResult :=
  fetchLeadsStart s selectedStatus searchQuery 1 true false

/-- `handleLoadMore` (`home/index.tsx` lines 323-327):
`if (!loadingMore && hasNextPage) fetchLeads(currentPage + 1, false, true)`.
Only the `loadingMore` flag and `hasNextPage` are consulted. -/
def handleLoadMore (s : DashboardState) (selectedStatus : StatusFilterKey)
    (searchQuery : String) : StepResult :=
  if s.loadingMore = false ∧ s.hasNextPage = true then
    fetchLeadsStart s selectedStatus searchQuery (s.currentPage + 1) false true
  else
    { state := s, calls := [], alerts := [] }

/-- Synchronous prefix of the confirmed branch of `handleAssignLead`
(`home/index.tsx` lines 330-364): after the assignee and lead lookups
succeed and the user confirms, it sets `assigningLead`, applies the
optimistic patch (`assigned_to` and `assignee` on the matching lead,
all other leads mapped to themselves), and issues the
`LeadsService.assignLead` call.  If either lookup fails, an error alert
is shown and nothing else happens. -/
def handleAssignLeadStart (s : DashboardState) (leadId : Nat)
    (assigneeId : Nat) : StepResult :=
  match s.assignees.find? (fun a => a.id == assigneeId),
        s.leads.find? (fun l => l.id == leadId) with
  | some a, some _ =>
      { state := { s with
          assigningLead := some leadId
          leads := s.leads.map fun l =>
            if l.id == leadId then
              { l with
                  assigned_to := some assigneeId
                  assignee := some { id := a.id, name := a.name } }
            else l }
        calls := [NetworkCall.assign leadId assigneeId]
        alerts := [] }
  | _, _ =>
      { state := s
        calls := []
        alerts := [errorAlert "Assignment Failed" "Could not find assignee or lead"] }

/-- The `catch`/`finally` continuation of `handleAssignLead` when the
`assignLead` call rejects (`home/index.tsx` lines 365-377): shows the
error alert, invokes `fetchLeads(1, true)` — whose synchronous prefix
sets `refreshing`, clears `error`, and issues the page-1 refresh
network call — and finally clears `assigningLead`. -/
def handleAssignLeadFailure (s : DashboardState)
    (selectedStatus : StatusFilterKey) (searchQuery : String)
    (msg : String) : StepResult :=
  let r := fetchLeadsStart s selectedStatus searchQuery 1 true false
  { state := { r.state with assigningLead := none }
    calls := r.calls
    alerts := errorAlert "Assignment Failed" msg :: r.alerts }

/-- Synchronous prefix of the confirmed branch of `handleUnassignLead`
(`home/index.tsx` lines 382-440): requires the lead to exist and be
assigned, then records `unassigningLead`, clears `assigned_to` and
`assignee` optimistically, and issues the `unassignLead` call. -/
def handleUnassignLeadStart (s : DashboardState) (leadId : Nat) : StepResult :=
  match s.leads.find? (fun l => l.id == leadId) with
  | some lead =>
      match lead.assignee with
      | some _ =>
          { state := { s with
              unassigningLead := some leadId
              leads := s.leads.map fun l =>
                if l.id == leadId then
                  { l with assigned_to := none, assignee := none }
                else l }
            calls := [NetworkCall.unassign leadId]
            alerts := [] }
      | none =>
          { state := s
            calls := []
            alerts := [errorAlert "Unassignment Failed" "This lead is not assigned to anyone"] }
  | none =>
      { state := s
        calls := []
        alerts := [errorAlert "Unassignment Failed" "Could not find lead"] }

/-- The `catch`/`finally` continuation of `handleUnassignLead` on
failure (`home/index.tsx` lines 426-437): error alert, `fetchLeads(1, true)`,
and `unassigningLead` cleared. -/
def handleUnassignLeadFailure (s : DashboardState)
    (selectedStatus : StatusFilterKey) (searchQuery : String)
    (msg : String) : StepResult :=
  let r := fetchLeadsStart s selectedStatus searchQuery 1 true false
  { state := { r.state with unassigningLead := none }
    calls := r.calls
    alerts := errorAlert "Unassignment Failed" msg :: r.alerts }

/-- Synchronous prefix of the confirmed branch of `handleStatusChange`
(`home/index.tsx` lines 443-474): requires the lead to exist, records
`changingStatus`, patches the lead's `status` to the display label of
the requested status, and issues the `changeLeadStatus` call (which
sends the status API name). -/
def handleStatusChangeStart (s : DashboardState) (leadId : Nat)
    (statusNumber : LeadStatusNumber) : StepResult :=
  match s.leads.find? (fun l => l.id == leadId) with
  | some _ =>
      { state := { s with
          changingStatus := some leadId
          leads := s.leads.map fun l =>
            if l.id == leadId then
              { l with status := getStatusLabel statusNumber }
            else l }
        calls := [NetworkCall.changeStatus leadId (getStatusApiName statusNumber)]
        alerts := [] }
  | none =>
      { state := s
        calls := []
        alerts := [errorAlert "Status Update Failed" "Could not find lead"] }

/-- The `catch`/`finally` continuation of `handleStatusChange` on
failure (`home/index.tsx` lines 475-488): error alert, `fetchLeads(1, true)`,
and `changingStatus` cleared. -/
def handleStatusChangeFailure (s : DashboardState)
    (selectedStatus : StatusFilterKey) (searchQuery : String)
    (msg : String) : StepResult :=
  let r := fetchLeadsStart s selectedStatus searchQuery 1 true false
  { state := { r.state with changingStatus := none }
    calls := r.calls
    alerts := errorAlert "Status Update Failed" msg :: r.alerts }

/-!
Timer model of `AdminDashboardScreen`.  The only timer primitives in
`home/index.tsx` are the `clearTimeout`/`setTimeout` pair of the
search-debounce effect (lines 293-308, delay 500 ms, one-shot) and the
`clearTimeout` cleanups on unmount (lines 191-193 and 303-307).  The
file — and the whole repository — contains no `setInterval`; the status
filter effect (lines 311-315) and the initial-load effect (lines
285-290) fetch immediately without creating a timer.  The model below
runs the screen over a time-stamped event trace and records every timer
created, the pending debounce timer, and the debounce fetches that
actually fire.
-/

/-- Record of one timer creation: its delay and whether it repeats.
Every timer the screen creates is a one-shot 500 ms `setTimeout`. -/
structure TimerRec where
  delayMs : Nat
  repeating : Bool
  deriving Repr, DecidableEq

/-- External events driving the screen's effects.  `mount` runs the
`[searchQuery]` effect with the initial empty query (scheduling a
debounce timer); `searchChange` re-runs it with the new query;
`statusFilterChange` runs the `[selectedStatus]` effect (an immediate
fetch, no timer); `pageOneLoadSuccess` is the resolution of a page-1
fetch (the source attaches no timer to it); `unmount` runs the
cleanups, which clear the pending debounce timer. -/
inductive ScreenEvent
  | mount
  | searchChange (q : String)
  | statusFilterChange (k : StatusFilterKey)
  | pageOneLoadSuccess
  | unmount
  deriving Repr, DecidableEq

/-- Timer bookkeeping of a screen run: the pending debounce timer (its
absolute fire time and the search value its callback closed over), all
timers created so far, the debounce fetches that fired (fire time and
search value), and whether the screen has been torn down. -/
structure ScreenTimers where
  pendingFire : Option (Nat × String)
  created : List TimerRec
  fired : List (Nat × String)
  tornDown : Bool
  deriving Repr, DecidableEq

/-- Event-loop rule: a pending one-shot timer whose fire time has been
reached runs before the next event is handled. -/
def fireIfDue (st : ScreenTimers) (now : Nat) : ScreenTimers :=
  match st.pendingFire with
  | some (ft, q) =>
      if ft ≤ now then
        { st with pendingFire := none, fired := st.fired ++ [(ft, q)] }
      else st
  | none => st

/-- The search-debounce effect body (`home/index.tsx` lines 293-301):
`clearTimeout` on the previous handle, then `setTimeout(..., 500)` whose
callback fetches page 1 with the query captured at scheduling time. -/
def scheduleDebounce (st : ScreenTimers) (now : Nat) (q : String) :
    ScreenTimers :=
  { st with
      pendingFire := some (now + 500, q)
      created := st.created ++ [{ delayMs := 500, repeating := false }] }

/-- One step of the screen's timer behaviour: fire any due timer, then
handle the event.  Only `mount` and `searchChange` create timers;
`unmount` clears the pending one and tears the screen down. -/
def screenStep (st : ScreenTimers) (now : Nat) (e : ScreenEvent) :
    ScreenTimers :=
  let st := fireIfDue st now
  match e with
  | .mount => scheduleDebounce st now ""
  | .searchChange q => scheduleDebounce st now q
  | .statusFilterChange _ => st
  | .pageOneLoadSuccess => st
  | .unmount => { st with pendingFire := none, tornDown := true }

/-- A time-stamped screen event. -/
structure TimedEvent where
  time : Nat
  ev : ScreenEvent
  deriving Repr, DecidableEq

/-- The initial timer state: nothing pending, nothing created. -/
def initialTimers : ScreenTimers :=
  { pendingFire := none, created := [], fired := [], tornDown := false }

/-- Runs the screen over a trace of events and then lets time run out:
a timer still pending after the last event (screen not torn down)
eventually fires. -/
def runScreen (events : List TimedEvent) : ScreenTimers :=
  let final := events.foldl (fun st e => screenStep st e.time e.ev) initialTimers
  match final.pendingFire with
  | some (ft, q) =>
      if final.tornDown = false then
        { final with pendingFire := none, fired := final.fired ++ [(ft, q)] }
      else final
  | none => final

/-- Converts a list of `(time, query)` search changes into screen events. -/
def mkSearchEvents (changes : List (Nat × String)) : List TimedEvent :=
  changes.map fun p => { time := p.1, ev := ScreenEvent.searchChange p.2 }

/-- Checks that a list of events is ordered after `tprev` and that each
event arrives strictly less than 500 ms after the previous one. -/
def gapsOk : Nat → List TimedEvent → Bool
  | _, [] => true
  | tprev, e :: rest =>
      tprev ≤ e.time && e.time < tprev + 500 && gapsOk e.time rest

/-- `s` with the four per-lead operation markers replaced — used to
state that the mutation handlers never consult them. -/
def withMarkers (s : DashboardState) (a u c n : Option Nat) :
    DashboardState :=
  { s with
      assigningLead := a
      unassigningLead := u
      changingStatus := c
      notifyingAssignee := n }

/-!  Concrete fixtures used to instantiate the theorems below. -/

/-- A dashboard state with nothing loaded and every flag clear. -/
def blankState : DashboardState :=
  { leads := [], assignees := [], currentPage := 1, hasNextPage := false,
    totalLeads := 0, loading := false, refreshing := false,
    loadingMore := false, error := none, assigningLead := none,
    unassigningLead := none, changingStatus := none,
    notifyingAssignee := none }

/-- A displayed lead with id 5 and no assignee. -/
def sampleLead : Lead :=
  { id := 5, first_name := "John", last_name := "Doe", status := "Pending",
    assigned_to := none, assignee := none }

/-- A second lead, id 6, as returned by a page-2 response. -/
def sampleLead6 : Lead :=
  { id := 6, first_name := "Jane", last_name := "Smith", status := "Pending",
    assigned_to := none, assignee := none }

/-- A candidate assignee with id 9. -/
def sampleAssignee : Assignee :=
  { id := 9, name := "Emma" }

/-- A state displaying lead 5 with assignee 9 available. -/
def readyState : DashboardState :=
  { blankState with leads := [sampleLead], assignees := [sampleAssignee] }

/-- `readyState` while an assign mutation on lead 5 is in flight. -/
def busyState : DashboardState :=
  { readyState with assigningLead := some 5 }

/-- A state with a refresh fetch in flight and a next page available. -/
def refreshingState : DashboardState :=
  { blankState with refreshing := true, hasNextPage := true }

/-- A state displaying one lead with a next page available and no
fetch in flight. -/
def loadReadyState : DashboardState :=
  { blankState with leads := [sampleLead], hasNextPage := true }

/-- A state with a loadMore fetch in flight. -/
def busyLoadState : DashboardState :=
  { blankState with loadingMore := true }

/-- A page-2 response carrying lead 6. -/
def sampleResponse : LeadsResponse :=
  { leads := [sampleLead6], currentPage := 2, total := 30, hasNextPage := false }

/-!  Helper lemmas about trimming. -/

/-- Dropping a prefix satisfying `p` is idempotent. -/
theorem dropWhile_dropWhile (p : Char → Bool) (l : List Char) :
    (l.dropWhile p).dropWhile p = l.dropWhile p := by
  induction l with
  | nil => rfl
  | cons a t ih =>
      by_cases h : p a = true
      · simp [List.dropWhile_cons, h, ih]
      · simp [List.dropWhile_cons, h]

/-- The head surviving `dropWhile p` does not satisfy `p`. -/
theorem head_dropWhile_false (p : Char → Bool) :
    ∀ (l : List Char) (a : Char) (t : List Char),
      l.dropWhile p = a :: t → p a = false := by
  intro l
  induction l with
  | nil => intro a t h; simp [List.dropWhile] at h
  | cons c cs ih =>
      intro a t h
      by_cases hc : p c = true
      · rw [List.dropWhile_cons, if_pos hc] at h
        exact ih a t h
      · rw [List.dropWhile_cons, if_neg hc] at h
        injection h with h1 _
        subst h1
        exact Bool.eq_false_iff.mpr hc

/-- `dropWhile` is the identity when the head does not satisfy `p`. -/
theorem dropWhile_of_head_false (p : Char → Bool) (l : List Char)
    (h : ∀ a ∈ l.head?, p a = false) : l.dropWhile p = l := by
  cases l with
  | nil => rfl
  | cons a t =>
      rw [List.dropWhile_cons, if_neg]
      simp only [List.head?_cons, Option.mem_def, Option.some.injEq] at h
      simp [h a rfl]

/-- `dropWhile` keeps the last element when its result is non-empty. -/
theorem getLast?_dropWhile (p : Char → Bool) :
    ∀ (l : List Char), l.dropWhile p ≠ [] →
      (l.dropWhile p).getLast? = l.getLast? := by
  intro l
  induction l with
  | nil => intro h; simp [List.dropWhile] at h
  | cons c cs ih =>
      intro h
      by_cases hc : p c = true
      · rw [List.dropWhile_cons, if_pos hc] at h ⊢
        rw [ih h]
        cases cs with
        | nil => simp [List.dropWhile] at h
        | cons d ds => rw [List.getLast?_cons_cons]
      · rw [List.dropWhile_cons, if_neg hc]

/-- Trimming both ends of a character list is idempotent. -/
theorem trimmedCore_idem (l : List Char) :
    trimmedCore (trimmedCore l) = trimmedCore l := by
  have hstep : (trimmedCore l).dropWhile isSpaceChar = trimmedCore l := by
    apply dropWhile_of_head_false
    intro a ha
    unfold trimmedCore at ha
    rw [List.head?_reverse] at ha
    have hBne : (l.dropWhile isSpaceChar).reverse.dropWhile isSpaceChar ≠ [] := by
      intro hB
      rw [hB] at ha
      simp at ha
    rw [getLast?_dropWhile isSpaceChar _ hBne, List.getLast?_reverse] at ha
    cases hA : l.dropWhile isSpaceChar with
    | nil => rw [hA] at ha; simp at ha
    | cons b t =>
        rw [hA] at ha
        simp only [List.head?_cons, Option.mem_def, Option.some.injEq] at ha
        subst ha
        exact head_dropWhile_false isSpaceChar l b t hA
  calc trimmedCore (trimmedCore l)
      = (((trimmedCore l).dropWhile isSpaceChar).reverse.dropWhile
          isSpaceChar).reverse := rfl
    _ = ((trimmedCore l).reverse.dropWhile isSpaceChar).reverse := by rw [hstep]
    _ = (((l.dropWhile isSpaceChar).reverse.dropWhile
          isSpaceChar).dropWhile isSpaceChar).reverse := by
          unfold trimmedCore
          rw [List.reverse_reverse]
    _ = ((l.dropWhile isSpaceChar).reverse.dropWhile isSpaceChar).reverse := by
          rw [dropWhile_dropWhile]
    _ = trimmedCore l := rfl

/-- The JS trim model is idempotent, as `String.prototype.trim` is. -/
theorem jsTrim_idem (s : String) : jsTrim (jsTrim s) = jsTrim s := by
  simp [jsTrim, trimmedCore_idem]

/-- Claim C10, counterexample.  The claim states that `buildFilters`
returns exactly one status equality predicate whenever the status is
provided and is neither `"all"` nor `"All Status"`.  Providing the
empty string satisfies that condition, yet JS truthiness
(`if (status && ...)`) makes `buildFilters` return the empty list. -/
theorem C10_counterexample :
    ¬("" = "all") ∧ ¬("" = "All Status") ∧
      buildFilters (some "abc") (some "") = [] := by
  refine ⟨by decide, by decide, by decide⟩

/-- Claim C10, amended: the output of `buildFilters` is independent of
its search-query argument; it is the singleton status equality
predicate when the status is provided, non-empty, and neither `"all"`
nor `"All Status"`, and the empty list otherwise. -/
theorem C10_buildFilters_amended (q1 q2 : Option String) (s : Option String) :
    buildFilters q1 s = buildFilters q2 s ∧
    (∀ v, s = some v → v ≠ "" → v ≠ "all" → v ≠ "All Status" →
      buildFilters q1 s = [{ field := "status", operator := "eq", value := v }]) ∧
    (s = none ∨ s = some "" ∨ s = some "all" ∨ s = some "All Status" →
      buildFilters q1 s = []) := by
  refine ⟨rfl, ?_, ?_⟩
  · intro v hv h1 h2 h3
    subst hv
    simp [buildFilters, h1, h2, h3]
  · rintro (rfl | rfl | rfl | rfl) <;> simp [buildFilters]

/-- Witness for C10's amended theorem at concrete inputs. -/
theorem C10_buildFilters_amended_witness :
    buildFilters (some "a") (some "pending") =
      buildFilters (some "bb") (some "pending") ∧
    buildFilters (some "a") (some "pending") =
      [{ field := "status", operator := "eq", value := "pending" }] ∧
    buildFilters (some "a") none = [] :=
  ⟨(C10_buildFilters_amended (some "a") (some "bb") (some "pending")).1,
   (C10_buildFilters_amended (some "a") (some "bb") (some "pending")).2.1
     "pending" rfl (by decide) (by decide) (by decide),
   (C10_buildFilters_amended (some "a") (some "bb") none).2.2 (Or.inl rfl)⟩

/-- Claim C7: a fetch whose search box trims to the empty string and
whose selected status pill maps to an API status value `v` produces a
query payload with no `search_term` and exactly the status equality
predicate; a search box that trims to a non-empty string is sent,
trimmed, as `search_term`. -/
theorem C7_search_term_payload (k : StatusFilterKey) (v : String)
    (hk : STATUS_FILTER_MAP k = some v) (q : String)
    (hq : jsTrim q = "") (page : Nat) :
    (fetchLeadsRequest k q page).search_term = none ∧
    (fetchLeadsRequest k q page).filters =
      some [{ field := "status", operator := "eq", value := v }] ∧
    (∀ q2 : String, jsTrim q2 ≠ "" →
      (fetchLeadsRequest k q2 page).search_term = some (jsTrim q2)) := by
  refine ⟨?_, ?_, ?_⟩
  · simp [fetchLeadsRequest, getLeadsAdvancedQuery, hq]
  · cases k <;> simp [STATUS_FILTER_MAP] at hk <;>
      subst hk <;>
      simp [fetchLeadsRequest, getLeadsAdvancedQuery, buildFilters,
        STATUS_FILTER_MAP]
  · intro q2 h2
    simp [fetchLeadsRequest, getLeadsAdvancedQuery, h2, jsTrim_idem]

/-- Witness for C7 at concrete inputs: a whitespace-only search box
with the Pending pill, and the search box value of two spaces around
a word. -/
theorem C7_search_term_payload_witness :
    (fetchLeadsRequest .pending "  " 1).search_term = none ∧
    (fetchLeadsRequest .pending "  " 1).filters =
      some [{ field := "status", operator := "eq", value := "pending" }] ∧
    (fetchLeadsRequest .pending " hi " 1).search_term = some (jsTrim " hi ") :=
  have h := C7_search_term_payload .pending "pending" rfl "  " (by decide) 1
  ⟨h.1, h.2.1, h.2.2 " hi " (by decide)⟩

/-!  Helper lemmas about the screen timer model. -/

/-- `fireIfDue` never changes the record of created timers. -/
theorem fireIfDue_created (st : ScreenTimers) (now : Nat) :
    (fireIfDue st now).created = st.created := by
  unfold fireIfDue
  cases st.pendingFire with
  | none => rfl
  | some p => obtain ⟨ft, q⟩ := p; dsimp; split <;> rfl

/-- `fireIfDue` never changes the teardown flag. -/
theorem fireIfDue_tornDown (st : ScreenTimers) (now : Nat) :
    (fireIfDue st now).tornDown = st.tornDown := by
  unfold fireIfDue
  cases st.pendingFire with
  | none => rfl
  | some p => obtain ⟨ft, q⟩ := p; dsimp; split <;> rfl

/-- Every timer recorded by one screen step was either already recorded
or is the one-shot 500 ms debounce timer. -/
theorem screenStep_created (st : ScreenTimers) (now : Nat) (e : ScreenEvent) :
    ∀ tr ∈ (screenStep st now e).created,
      tr ∈ st.created ∨ tr = { delayMs := 500, repeating := false } := by
  intro tr htr
  cases e <;>
    simp [screenStep, scheduleDebounce, fireIfDue_created] at htr <;>
    tauto

/-- Folding screen steps over any event list only ever adds one-shot
500 ms debounce timers to the created record. -/
theorem created_foldl_inv :
    ∀ (evs : List TimedEvent) (st : ScreenTimers),
      (∀ tr ∈ st.created, tr.repeating = false ∧ tr.delayMs = 500) →
      ∀ tr ∈ (evs.foldl (fun st e => screenStep st e.time e.ev) st).created,
        tr.repeating = false ∧ tr.delayMs = 500 := by
  intro evs
  induction evs with
  | nil => intro st h; simpa using h
  | cons e rest ih =>
      intro st h
      simp only [List.foldl_cons]
      apply ih
      intro tr htr
      rcases screenStep_created st e.time e.ev tr htr with hmem | rfl
      · exact h tr hmem
      · exact ⟨rfl, rfl⟩

/-- The final fire at the end of a run does not change the created
record: `runScreen` and the bare fold agree on it. -/
theorem runScreen_created (events : List TimedEvent) :
    (runScreen events).created =
      (events.foldl (fun st e => screenStep st e.time e.ev)
        initialTimers).created := by
  unfold runScreen
  cases hp : (events.foldl (fun st e => screenStep st e.time e.ev)
      initialTimers).pendingFire with
  | none => simp [hp]
  | some p => obtain ⟨ft, q⟩ := p; simp only [hp]; split <;> rfl

/-- A trace ending in `unmount` ends with no pending timer and the
screen torn down. -/
theorem runScreen_unmount_clears (events : List TimedEvent) (t : Nat) :
    (runScreen (events ++ [⟨t, ScreenEvent.unmount⟩])).pendingFire = none ∧
    (runScreen (events ++ [⟨t, ScreenEvent.unmount⟩])).tornDown = true := by
  unfold runScreen
  rw [List.foldl_append]
  simp [screenStep]

/-- Claim C6, counterexample.  The claim asserts that after the first
successful page-1 load a repeating background poll timer (reference
interval 20 s) exists.  In the screen model — faithful to a source that
contains no `setInterval` anywhere — the run consisting of the mount
and a successful page-1 load has created exactly one timer, the
one-shot 500 ms debounce scheduled by the mount run of the search
effect, and no repeating timer at all. -/
theorem C6_counterexample :
    (runScreen [⟨0, ScreenEvent.mount⟩,
      ⟨10, ScreenEvent.pageOneLoadSuccess⟩]).created =
      [{ delayMs := 500, repeating := false }] ∧
    (runScreen [⟨0, ScreenEvent.mount⟩,
      ⟨10, ScreenEvent.pageOneLoadSuccess⟩]).created.filter
        (fun tr => tr.repeating) = [] := by
  decide

/-- Claim C6, amended: no background poll timer exists.  Over every
event trace, every timer the screen ever creates is the one-shot 500 ms
search-debounce timer — never a repeating one — and a trace ending in
view teardown leaves no pending timer and the screen torn down, so
nothing fires after teardown. -/
theorem C6_no_poll_timer (events : List TimedEvent) :
    (∀ tr ∈ (runScreen events).created,
      tr.repeating = false ∧ tr.delayMs = 500) ∧
    (∀ t : Nat,
      (runScreen (events ++ [⟨t, ScreenEvent.unmount⟩])).pendingFire
        = none ∧
      (runScreen (events ++ [⟨t, ScreenEvent.unmount⟩])).tornDown
        = true) := by
  constructor
  · intro tr htr
    rw [runScreen_created] at htr
    exact created_foldl_inv events initialTimers (by simp [initialTimers])
      tr htr
  · intro t
    exact runScreen_unmount_clears events t

/-- Witness for C6's amended theorem on the mount-and-load trace. -/
theorem C6_no_poll_timer_witness :
    ({ delayMs := 500, repeating := false } : TimerRec).repeating = false ∧
    (runScreen ([⟨0, ScreenEvent.mount⟩,
      ⟨10, ScreenEvent.pageOneLoadSuccess⟩] ++
      [⟨20, ScreenEvent.unmount⟩])).pendingFire = none :=
  have h := C6_no_poll_timer
    [⟨0, ScreenEvent.mount⟩, ⟨10, ScreenEvent.pageOneLoadSuccess⟩]
  ⟨(h.1 { delayMs := 500, repeating := false } (by decide)).1, (h.2 20).1⟩

/-- Claim C1, counterexample.  With assign(5, 9) still pending
(`assigningLead = some 5`), a change-status request on lead 5 is not
rejected as busy: it issues the change-status network call, records its
own marker, and applies its optimistic status patch — contradicting the
claim that a second mutation on a busy lead causes no network call and
no state transition. -/
theorem C1_counterexample :
    busyState.assigningLead = some 5 ∧
    (handleStatusChangeStart busyState 5 .n3).calls =
      [NetworkCall.changeStatus 5 "lead_contacted"] ∧
    (handleStatusChangeStart busyState 5 .n3).state.changingStatus = some 5 ∧
    (handleStatusChangeStart busyState 5 .n3).state.leads ≠ busyState.leads := by
  decide

/-- Claim C1, amended: there is no busy rejection.  The mutation
handlers never consult the per-lead in-flight markers: the calls they
issue and the lead-list patch they apply are identical whatever the
four markers hold, so a second mutation on a lead with an operation in
flight proceeds exactly as on an idle lead. -/
theorem C1_no_busy_rejection (s : DashboardState) (a u c n : Option Nat)
    (leadId assigneeId : Nat) (num : LeadStatusNumber) :
    (handleStatusChangeStart (withMarkers s a u c n) leadId num).calls =
      (handleStatusChangeStart s leadId num).calls ∧
    (handleStatusChangeStart (withMarkers s a u c n) leadId num).state.leads =
      (handleStatusChangeStart s leadId num).state.leads ∧
    (handleAssignLeadStart (withMarkers s a u c n) leadId assigneeId).calls =
      (handleAssignLeadStart s leadId assigneeId).calls ∧
    (handleAssignLeadStart (withMarkers s a u c n) leadId
        assigneeId).state.leads =
      (handleAssignLeadStart s leadId assigneeId).state.leads := by
  cases hfind : s.leads.find? (fun l => l.id == leadId) <;>
    cases hfa : s.assignees.find? (fun x => x.id == assigneeId) <;>
    simp [handleStatusChangeStart, handleAssignLeadStart, withMarkers,
      hfind, hfa]

/-- Claim C2: the confirmed assign handler patches the displayed list
synchronously, in the same phase that issues the (not yet resolved)
network call: the lead at the given id gets `assigned_to = assigneeId`
and `assignee = {id, name}` of the looked-up assignee, and every other
position of the list is unchanged. -/
theorem C2_assign_optimistic_patch (s : DashboardState)
    (leadId assigneeId : Nat) (a : Assignee) (l0 : Lead)
    (ha : s.assignees.find? (fun x => x.id == assigneeId) = some a)
    (hl : s.leads.find? (fun l => l.id == leadId) = some l0) :
    (handleAssignLeadStart s leadId assigneeId).calls =
      [NetworkCall.assign leadId assigneeId] ∧
    ∀ i : Nat,
      ((handleAssignLeadStart s leadId assigneeId).state.leads)[i]? =
        (s.leads[i]?).map fun l =>
          if l.id = leadId then
            { l with assigned_to := some assigneeId,
                     assignee := some { id := assigneeId, name := a.name } }
          else l := by
  have haid : a.id = assigneeId := by
    have h := List.find?_some ha
    simpa using h
  have hres : (handleAssignLeadStart s leadId assigneeId).state.leads =
      s.leads.map (fun l =>
        if l.id = leadId then
          { l with assigned_to := some assigneeId,
                   assignee := some { id := assigneeId, name := a.name } }
        else l) := by
    simp [handleAssignLeadStart, ha, hl, haid]
  refine ⟨?_, ?_⟩
  · simp [handleAssignLeadStart, ha, hl]
  · intro i
    rw [hres, List.getElem?_map]

/-- Witness for C2 on a concrete state displaying lead 5 with
assignee 9 available. -/
theorem C2_assign_optimistic_patch_witness :
    (handleAssignLeadStart readyState 5 9).calls = [NetworkCall.assign 5 9] ∧
    ((handleAssignLeadStart readyState 5 9).state.leads)[0]? =
      ((readyState.leads)[0]?).map fun l =>
        if l.id = 5 then
          { l with assigned_to := some 9,
                   assignee := some { id := 9, name := sampleAssignee.name } }
        else l :=
  have h := C2_assign_optimistic_patch readyState 5 9 sampleAssignee
    sampleLead (by decide) (by decide)
  ⟨h.1, h.2 0⟩

/-- Claim C3: for each of the three data-mutating kinds, the failure
continuation clears that mutation's per-lead marker, automatically
triggers the page-1 refresh fetch (refreshing set, error cleared,
getLeads call issued with the current filters), and surfaces the
failure as an error alert carrying the message; a subsequent successful
refresh replaces the displayed list wholesale with the server's data,
discarding the optimistic patch. -/
theorem C3_mutation_failure_rollback (s : DashboardState)
    (st : StatusFilterKey) (q : String) (msg : String) :
    ((handleAssignLeadFailure s st q msg).state.assigningLead = none ∧
      (handleAssignLeadFailure s st q msg).calls =
        [NetworkCall.getLeads (fetchLeadsRequest st q 1)] ∧
      (handleAssignLeadFailure s st q msg).state.refreshing = true ∧
      (handleAssignLeadFailure s st q msg).alerts =
        [errorAlert "Assignment Failed" msg]) ∧
    ((handleUnassignLeadFailure s st q msg).state.unassigningLead = none ∧
      (handleUnassignLeadFailure s st q msg).calls =
        [NetworkCall.getLeads (fetchLeadsRequest st q 1)] ∧
      (handleUnassignLeadFailure s st q msg).state.refreshing = true ∧
      (handleUnassignLeadFailure s st q msg).alerts =
        [errorAlert "Unassignment Failed" msg]) ∧
    ((handleStatusChangeFailure s st q msg).state.changingStatus = none ∧
      (handleStatusChangeFailure s st q msg).calls =
        [NetworkCall.getLeads (fetchLeadsRequest st q 1)] ∧
      (handleStatusChangeFailure s st q msg).state.refreshing = true ∧
      (handleStatusChangeFailure s st q msg).alerts =
        [errorAlert "Status Update Failed" msg]) ∧
    (∀ resp : LeadsResponse,
      (fetchLeadsSuccess s 1 true false resp).state.leads = resp.leads) := by
  refine ⟨⟨rfl, rfl, rfl, rfl⟩, ⟨rfl, rfl, rfl, rfl⟩, ⟨rfl, rfl, rfl, rfl⟩, ?_⟩
  intro resp
  simp [fetchLeadsSuccess]

/-- Claim C4, counterexample.  With a refresh fetch in flight
(`refreshing = true`) but `loadingMore = false` and a next page
available, `handleLoadMore` still issues a network call — contradicting
the claim that a loadMore is only issued when no fetch is currently in
flight. -/
theorem C4_counterexample :
    refreshingState.refreshing = true ∧
    (handleLoadMore refreshingState .allStatus "").calls =
      [NetworkCall.getLeads (fetchLeadsRequest .allStatus "" 2)] := by
  decide

/-- Claim C4, amended: `handleLoadMore` issues a request exactly when
`hasNextPage` is true and no loadMore fetch is in flight (a pending
first-page or refresh fetch does not block it); the request is for page
`currentPage + 1`, and its successful response is appended to the end
of the existing list without modifying the previously loaded leads,
with `currentPage` taken from the response. -/
theorem C4_loadMore_amended (s : DashboardState) (st : StatusFilterKey)
    (q : String) :
    ((handleLoadMore s st q).calls ≠ [] ↔
      s.loadingMore = false ∧ s.hasNextPage = true) ∧
    (s.loadingMore = false → s.hasNextPage = true →
      (handleLoadMore s st q).calls =
        [NetworkCall.getLeads (fetchLeadsRequest st q (s.currentPage + 1))]) ∧
    (∀ page resp, page ≠ 1 →
      (fetchLeadsSuccess s page false true resp).state.leads =
        s.leads ++ resp.leads ∧
      (fetchLeadsSuccess s page false true resp).state.currentPage =
        resp.currentPage) := by
  refine ⟨?_, ?_, ?_⟩
  · by_cases h : s.loadingMore = false ∧ s.hasNextPage = true <;>
      simp [handleLoadMore, fetchLeadsStart, h]
  · intro h1 h2
    simp [handleLoadMore, fetchLeadsStart, h1, h2]
  · intro page resp hpage
    simp [fetchLeadsSuccess, hpage]

/-- Witness for C4's amended theorem: from a state displaying one lead
on page 1 with a next page, loadMore requests page 2 and the response's
lead is appended after the existing one. -/
theorem C4_loadMore_amended_witness :
    (handleLoadMore loadReadyState .allStatus "").calls =
      [NetworkCall.getLeads (fetchLeadsRequest .allStatus "" 2)] ∧
    (fetchLeadsSuccess loadReadyState 2 false true sampleResponse).state.leads =
      loadReadyState.leads ++ sampleResponse.leads :=
  have h := C4_loadMore_amended loadReadyState .allStatus ""
  ⟨h.2.1 rfl rfl, (h.2.2 2 sampleResponse (by decide)).1⟩

/-- Claim C5, counterexample.  Starting a first-page fetch sets
`loading`; invoking `fetchLeads` again in refresh mode while it is
pending still issues a second network call, and afterwards both
`loading` and `refreshing` are true — contradicting both parts of the
claim (mutual exclusion of visible fetches, and at most one visible
flag set at any instant). -/
theorem C5_counterexample :
    (fetchLeadsStart blankState .allStatus "" 1 false false).state.loading
      = true ∧
    (fetchLeadsStart (fetchLeadsStart blankState .allStatus "" 1 false
      false).state .allStatus "" 1 true false).calls ≠ [] ∧
    (fetchLeadsStart (fetchLeadsStart blankState .allStatus "" 1 false
      false).state .allStatus "" 1 true false).state.loading = true ∧
    (fetchLeadsStart (fetchLeadsStart blankState .allStatus "" 1 false
      false).state .allStatus "" 1 true false).state.refreshing = true := by
  decide

/-- Claim C5, amended: visible fetches are not mutually exclusive.
`fetchLeads` issues exactly one network call per invocation regardless
of the three loading flags; starting a refresh leaves `loading` as it
was and starting a loadMore leaves `refreshing` as it was, so two
visible fetches can be in flight with two flags true simultaneously.
Only a concurrent loadMore is prevented, by `handleLoadMore`'s
`!loadingMore` guard. -/
theorem C5_no_mutual_exclusion (s : DashboardState) (st : StatusFilterKey)
    (q : String) (page : Nat) (isRefresh isLoadMore : Bool) :
    (fetchLeadsStart s st q page isRefresh isLoadMore).calls =
      [NetworkCall.getLeads (fetchLeadsRequest st q page)] ∧
    (fetchLeadsStart s st q 1 true false).state.loading = s.loading ∧
    (fetchLeadsStart s st q page false true).state.refreshing =
      s.refreshing ∧
    (s.loadingMore = true → (handleLoadMore s st q).calls = []) := by
  refine ⟨rfl, rfl, rfl, ?_⟩
  intro h
  simp [handleLoadMore, h]

/-- Witness for C5's amended theorem at a state with a loadMore in
flight. -/
theorem C5_no_mutual_exclusion_witness :
    (fetchLeadsStart busyLoadState .allStatus "" 1 false false).calls =
      [NetworkCall.getLeads (fetchLeadsRequest .allStatus "" 1)] ∧
    (handleLoadMore busyLoadState .allStatus "").calls = [] :=
  have h := C5_no_mutual_exclusion busyLoadState .allStatus "" 1 false false
  ⟨h.1, h.2.2.2 rfl⟩

/-- Reduction of one screen step at an `unmount` event: fire anything
due, then clear the pending timer and tear down. -/
theorem screenStep_unmount (st : ScreenTimers) (now : Nat) :
    screenStep st now ScreenEvent.unmount =
      { fireIfDue st now with pendingFire := none, tornDown := true } := rfl

/-- A run torn down before the pending timer's fire time fires exactly
what the bare fold had fired: the pending timer is canceled, not run. -/
theorem runScreen_append_unmount (events : List TimedEvent)
    (tu ft : Nat) (q : String)
    (hp : (events.foldl (fun st e => screenStep st e.time e.ev)
        initialTimers).pendingFire = some (ft, q))
    (hlt : ¬ (ft ≤ tu)) :
    (runScreen (events ++ [⟨tu, ScreenEvent.unmount⟩])).fired =
      (events.foldl (fun st e => screenStep st e.time e.ev)
        initialTimers).fired := by
  have h2 : fireIfDue (events.foldl (fun st e => screenStep st e.time e.ev)
      initialTimers) tu =
      events.foldl (fun st e => screenStep st e.time e.ev) initialTimers := by
    unfold fireIfDue
    rw [hp]
    simp [hlt]
  unfold runScreen
  rw [List.foldl_append]
  simp only [List.foldl_cons, List.foldl_nil]
  rw [screenStep_unmount, h2]

/-- Running the search-change events of a tightly-spaced change
sequence over a state with a pending debounce timer fires nothing,
replaces the pending timer step by step, and ends with the timer of the
last change pending. -/
theorem debounce_foldl (changes : List (Nat × String)) :
    ∀ (st : ScreenTimers) (tprev : Nat) (qprev : String),
      st.pendingFire = some (tprev + 500, qprev) →
      gapsOk tprev (mkSearchEvents changes) = true →
      ((mkSearchEvents changes).foldl
          (fun st e => screenStep st e.time e.ev) st).fired = st.fired ∧
      ((mkSearchEvents changes).foldl
          (fun st e => screenStep st e.time e.ev) st).tornDown =
        st.tornDown ∧
      ((mkSearchEvents changes).foldl
          (fun st e => screenStep st e.time e.ev) st).pendingFire =
        some ((changes.getLastD (tprev, qprev)).1 + 500,
          (changes.getLastD (tprev, qprev)).2) := by
  induction changes with
  | nil =>
      intro st tprev qprev hp _
      exact ⟨rfl, rfl, hp⟩
  | cons c rest ih =>
      intro st tprev qprev hp hg
      obtain ⟨t, q⟩ := c
      have hg1 : tprev ≤ t ∧ t < tprev + 500 ∧
          gapsOk t (mkSearchEvents rest) = true := by
        simpa [mkSearchEvents, gapsOk, Bool.and_eq_true,
          decide_eq_true_iff, and_assoc] using hg
      have hlt : ¬ (tprev + 500 ≤ t) := Nat.not_le.mpr hg1.2.1
      have hstep : screenStep st t (ScreenEvent.searchChange q) =
          { st with
              pendingFire := some (t + 500, q)
              created := st.created ++
                [{ delayMs := 500, repeating := false }] } := by
        simp [screenStep, fireIfDue, hp, hlt, scheduleDebounce]
      have hres := ih
        { st with
            pendingFire := some (t + 500, q)
            created := st.created ++
              [{ delayMs := 500, repeating := false }] }
        t q rfl hg1.2.2
      simp only [mkSearchEvents, List.map_cons, List.foldl_cons] at *
      rw [hstep]
      refine ⟨hres.1, hres.2.1, ?_⟩
      rw [hres.2.2, List.getLastD_cons]

/-- Claim C8: over a non-empty sequence of search-term changes, each
arriving less than 500 ms after the previous event (the first within
500 ms of mount), every change cancels the debounce timer pending from
the previous change, so exactly one debounce fetch fires, at 500 ms
after the last change and carrying the final search value; and if the
screen is torn down before that fire time, the pending timer is
canceled and no fetch ever fires. -/
theorem C8_debounce_collapse (t0 : Nat) (changes : List (Nat × String))
    (hne : changes ≠ [])
    (hg : gapsOk t0 (mkSearchEvents changes) = true) :
    (runScreen (⟨t0, ScreenEvent.mount⟩ :: mkSearchEvents changes)).fired =
      [((changes.getLastD (t0, "")).1 + 500,
        (changes.getLastD (t0, "")).2)] ∧
    (∀ tu : Nat, tu < (changes.getLastD (t0, "")).1 + 500 →
      (runScreen ((⟨t0, ScreenEvent.mount⟩ :: mkSearchEvents changes) ++
        [⟨tu, ScreenEvent.unmount⟩])).fired = []) := by
  have hmount : screenStep initialTimers t0 ScreenEvent.mount =
      { pendingFire := some (t0 + 500, "")
        created := [{ delayMs := 500, repeating := false }]
        fired := []
        tornDown := false } := by
    simp [screenStep, fireIfDue, initialTimers, scheduleDebounce]
  have hfold := debounce_foldl changes
    { pendingFire := some (t0 + 500, "")
      created := [{ delayMs := 500, repeating := false }]
      fired := []
      tornDown := false }
    t0 "" rfl hg
  constructor
  · unfold runScreen
    simp only [List.foldl_cons, hmount]
    rw [hfold.2.2]
    simp [hfold.1, hfold.2.1]
  · intro tu htu
    have hnofire : ¬ ((changes.getLastD (t0, "")).1 + 500 ≤ tu) :=
      Nat.not_le.mpr htu
    have hp : ((⟨t0, ScreenEvent.mount⟩ :: mkSearchEvents changes).foldl
        (fun st e => screenStep st e.time e.ev) initialTimers).pendingFire =
        some ((changes.getLastD (t0, "")).1 + 500,
          (changes.getLastD (t0, "")).2) := by
      simp only [List.foldl_cons, hmount]
      exact hfold.2.2
    have hfired : ((⟨t0, ScreenEvent.mount⟩ :: mkSearchEvents changes).foldl
        (fun st e => screenStep st e.time e.ev) initialTimers).fired = [] := by
      simp only [List.foldl_cons, hmount]
      exact hfold.1
    rw [runScreen_append_unmount (⟨t0, ScreenEvent.mount⟩ ::
      mkSearchEvents changes) tu _ _ hp hnofire, hfired]

/-- Witness for C8 on the inputs "a", "ab", "abc" at 100 ms intervals,
with and without a teardown at 350 ms. -/
theorem C8_debounce_collapse_witness :
    (runScreen (⟨0, ScreenEvent.mount⟩ ::
      mkSearchEvents [(100, "a"), (200, "ab"), (300, "abc")])).fired =
      [(800, "abc")] ∧
    (runScreen ((⟨0, ScreenEvent.mount⟩ ::
      mkSearchEvents [(100, "a"), (200, "ab"), (300, "abc")]) ++
      [⟨350, ScreenEvent.unmount⟩])).fired = [] :=
  have h := C8_debounce_collapse 0 [(100, "a"), (200, "ab"), (300, "abc")]
    (by decide) (by decide)
  ⟨h.1, h.2 350 (by decide)⟩

/-- Claim C9: a failing first-page or refresh fetch (`isLoadMore`
false) records the error message but leaves the displayed leads,
`currentPage`, `hasNextPage` and the total untouched, and issues no
further network call — the list is never cleared or replaced on
failure. -/
theorem C9_failure_preserves_list (s : DashboardState) (isRefresh : Bool)
    (msg : String) (hne : s.leads ≠ []) :
    (fetchLeadsFailure s isRefresh false msg).state.leads = s.leads ∧
    (fetchLeadsFailure s isRefresh false msg).state.currentPage =
      s.currentPage ∧
    (fetchLeadsFailure s isRefresh false msg).state.hasNextPage =
      s.hasNextPage ∧
    (fetchLeadsFailure s isRefresh false msg).state.totalLeads =
      s.totalLeads ∧
    (fetchLeadsFailure s isRefresh false msg).state.error = some msg ∧
    (fetchLeadsFailure s isRefresh false msg).calls = [] :=
  ⟨rfl, rfl, rfl, rfl, rfl, rfl⟩

/-- Witness for C9 on a state displaying one lead. -/
theorem C9_failure_preserves_list_witness :
    (fetchLeadsFailure readyState true false "boom").state.leads =
      readyState.leads ∧
    (fetchLeadsFailure readyState true false "boom").state.error =
      some "boom" :=
  have h := C9_failure_preserves_list readyState true "boom" (by decide)
  ⟨h.1, h.2.2.2.2.1⟩

end BonnLeads
